import Mathlib

/-!
Shallow embedding of the team-communications application (src/agent.py and
src/app.py).  Python dates are modelled by their ordinal day number (a `Nat`,
days counted from 0000-03-01 in the proleptic Gregorian calendar); `datetime`
values that only matter through their date are modelled the same way.  JSON
dictionaries are modelled by structures; a field read in the source through
`dict.get` (so possibly absent) is given an `Option` type, a field read with
`[...]` or always defaulted on read is given a total type.  Calls to the
external LLM plus `_extract_json_from_response` are modelled by an oracle
argument giving, per call, the extracted object (or `none` when extraction
fails); `uuid.uuid4()` draws and `datetime.now()` are explicit arguments.
The JSON store is passed and returned explicitly.
-/

namespace Comms

/-! ### Calendar arithmetic (embeds Python `datetime.date` ordinals) -/

/-- Gregorian leap-year test. -/
def isLeap (y : Nat) : Bool := y % 4 == 0 && (y % 100 != 0 || y % 400 == 0)

/-- Number of days in month `m` of year `y`. -/
def daysInMonth (y m : Nat) : Nat :=
  if m == 2 then (if isLeap y then 29 else 28)
  else if m == 4 || m == 6 || m == 9 || m == 11 then 30
  else 31

/-- Ordinal day number of the civil date `y-m-d` (days since 0000-03-01),
    the standard days-from-civil computation; valid for `y ≥ 1`. -/
def toOrdinal (y m d : Nat) : Nat :=
  let y' := if m ≤ 2 then y - 1 else y
  let era := y' / 400
  let yoe := y' % 400
  let mp := if m > 2 then m - 3 else m + 9
  let doy := (153 * mp + 2) / 5 + d - 1
  let doe := yoe * 365 + yoe / 4 - yoe / 100 + doy
  era * 146097 + doe

/-- Inverse of `toOrdinal`: the civil date `(y, m, d)` of an ordinal day. -/
def civilFromOrdinal (z : Nat) : Nat × Nat × Nat :=
  let era := z / 146097
  let doe := z % 146097
  let yoe := (doe - doe / 1460 + doe / 36524 - doe / 146096) / 365
  let y := yoe + era * 400
  let doy := doe - (365 * yoe + yoe / 4 - yoe / 100)
  let mp := (5 * doy + 2) / 153
  let d := doy - (153 * mp + 2) / 5 + 1
  let m := if mp < 10 then mp + 3 else mp - 9
  (if m ≤ 2 then y + 1 else y, m, d)

/-- Zero-pad a number to two digits (Python `%m` / `%d` formatting). -/
def pad2 (n : Nat) : String := if n < 10 then "0" ++ toString n else toString n

/-- Embeds `date.strftime(%x27%Y-%m-%d%x27)`. -/
def formatDate (z : Nat) : String :=
  let c := civilFromOrdinal z
  toString c.1 ++ "-" ++ pad2 c.2.1 ++ "-" ++ pad2 c.2.2

/-- Split a character list at every occurrence of `sep` (the semantics of
    Python `str.split(sep)` for a one-character separator). -/
def splitChar (sep : Char) : List Char → List (List Char)
  | [] => [[]]
  | c :: rest =>
    match splitChar sep rest with
    | [] => [[c]]
    | g :: gs => if c = sep then [] :: g :: gs else (c :: g) :: gs

/-- Test that `g` is a non-empty group of at most `maxLen` decimal digits. -/
def digitsOK (g : List Char) (maxLen : Nat) : Bool :=
  !g.isEmpty && g.length ≤ maxLen && g.all Char.isDigit

/-- Decimal value of a digit group (`int` applied to a digit string). -/
def digitsToNat (g : List Char) : Nat :=
  g.foldl (fun acc c => 10 * acc + (c.toNat - 48)) 0

/-- The CPython strptime day field: the regex alternatives for the percent-d
    directive are 1-2 digits valued 1 to 31, or a space followed by a single
    digit 1 to 9 (a space-padded day); the parsed value, or `none` when the
    group matches neither alternative. -/
def dayDigits (g : List Char) : Option Nat :=
  if digitsOK g 2 && 1 ≤ digitsToNat g && digitsToNat g ≤ 31 then
    some (digitsToNat g)
  else
    match g with
    | [' ', c] => if '1' ≤ c && c ≤ '9' then some (c.toNat - 48) else none
    | _ => none

/-- Embeds `datetime.strptime(s, %x27%Y-%m-%d%x27).date()` as an ordinal
    day, following the CPython strptime regex: the year is exactly four
    digits (the percent-Y directive), the month 1-2 digits valued 1 to 12,
    the day 1-2 digits valued 1 to 31 or a space-padded single digit; the
    `date` constructor then requires year at least 1 and the day to fit the
    month.  Any other string raises `ValueError`, modelled as `none`. -/
def parseDate (s : String) : Option Nat :=
  match splitChar '-' s.data with
  | [ys, ms, ds] =>
    if ys.length = 4 && ys.all Char.isDigit &&
       digitsOK ms 2 && 1 ≤ digitsToNat ms && digitsToNat ms ≤ 12 then
      match dayDigits ds with
      | some d =>
        let y := digitsToNat ys
        let m := digitsToNat ms
        if 1 ≤ y && d ≤ daysInMonth y m then some (toOrdinal y m d) else none
      | none => none
    else none
  | _ => none

/-! ### Data model (the JSON project records of `data/projects.json`) -/

/-- One entry of a project's `upcoming_milestones` list. -/
structure Milestone where
  date : String
  description : String
deriving DecidableEq

/-- One entry of a project's `comms_history` list, as built by
    `update_comms_history` (src/agent.py lines 363-372). -/
structure CommEntry where
  id : String
  date_sent : String
  type : Option String
  audience : Option String
  subject : Option String
  summary : String
  key_messages : List String
  sent_to : List String
deriving DecidableEq

/-- One entry of a plan's `planned_communications` list.  `target_date` and
    `status` are read with `.get` / inside `try` in the source, so they are
    optional; `audiences` and `key_topics` are always read with a `[]`
    default, so absence is identified with the empty list. -/
structure PlannedComm where
  target_date : Option String
  type : Option String
  audiences : List String
  reason : Option String
  key_topics : List String
  status : Option String
deriving DecidableEq

/-- A `comms_plan` object.  `create_project` (src/app.py) stores `None` for
    the two header fields, hence the `Option` types. -/
structure Plan where
  generated_date : Option String
  planning_horizon : Option String
  planned_communications : List PlannedComm
deriving DecidableEq

/-- The `stakeholders` object of a project. -/
structure Stakeholders where
  users : List String
  developers : List String
  management : List String
deriving DecidableEq

/-- A project record.  `comms_history` may be absent (`update_comms_history`
    initialises it on demand) and `comms_plan` is read with `.get`. -/
structure Project where
  id : String
  name : String
  owner : String
  status : String
  description : String
  business_value : String
  start_date : String
  current_phase : String
  expected_launch : String
  stakeholders : Stakeholders
  recent_updates : List String
  upcoming_milestones : List Milestone
  comms_history : Option (List CommEntry)
  comms_plan : Option Plan
deriving DecidableEq

/-- The whole JSON store (`data/projects.json`). -/
structure Store where
  projects : List Project
deriving DecidableEq

/-- Embeds `load_projects` (src/agent.py lines 28-34): the file system is
    `none` when the data file does not exist, in which case the function
    returns the object with an empty `projects` array. -/
def load_projects (fs : Option Store) : Store := fs.getD ⟨[]⟩

/-- Embeds `get_project_by_id` (src/agent.py lines 44-50): first project of
    the store whose `id` matches. -/
def get_project_by_id (s : Store) (project_id : String) : Option Project :=
  s.projects.find? (fun p => p.id == project_id)

/-- Embeds `project.get(comms_plan, ...).get(planned_communications, [])`
    with its empty-object and empty-list defaults. -/
def plannedComms (p : Project) : List PlannedComm :=
  (p.comms_plan.map Plan.planned_communications).getD []

/-- Embeds the `/api/projects` route (src/app.py lines 384-388). -/
def api_projects (fs : Option Store) : Store := load_projects fs

/-! ### Due communications (src/agent.py lines 172-210) -/

/-- One element of the list returned by `get_due_communications`. -/
structure DueComm where
  project_id : String
  project_name : String
  planned_comm : PlannedComm
  days_until_due : Nat
deriving DecidableEq

/-- The body of the `for comm in planned` loop of `get_due_communications`:
    skip unless `status` is `pending`; a missing `target_date` key
    (`KeyError`) or an unparsable value (`ValueError`) is caught and the
    communication skipped; otherwise keep it when today ≤ target ≤ today+7,
    recording the day offset. -/
def considerComm (today : Nat) (pid pname : String) (c : PlannedComm) : Option DueComm :=
  if c.status = some "pending" then
    match c.target_date with
    | none => none
    | some tds =>
      match parseDate tds with
      | none => none
      | some target =>
        if today ≤ target ∧ target ≤ today + 7 then
          some ⟨pid, pname, c, target - today⟩
        else none
  else none

/-- Embeds `get_due_communications`: gather the due communications of every
    project and sort them (stably) by `days_until_due`. -/
def get_due_communications (s : Store) (today : Nat) : List DueComm :=
  (s.projects.flatMap
      (fun p => (plannedComms p).filterMap (considerComm today p.id p.name))).mergeSort
    (fun a b => decide (a.days_until_due ≤ b.days_until_due))

/-! ### Fallback plan generator (src/agent.py lines 416-451) -/

/-- Embeds `_generate_fallback_plan`; `today` is the ordinal day of
    `datetime.now()`.  `range(2, 13, 3)` is the weeks `[2, 5, 8, 11]`;
    `timedelta(weeks=w)` adds `7 * w` days and `timedelta(days=30*m)` adds
    `30 * m` days. -/
def generate_fallback_plan (project : Project) (today : Nat) : Plan :=
  let planned : List PlannedComm :=
    if project.status = "active" then
      ([2, 5, 8, 11].map (fun week =>
        { target_date := some (formatDate (today + 7 * week))
          type := some "status_update"
          audiences := ["developers"]
          reason := some ("Regular status update - week " ++ toString week)
          key_topics := ["Progress update", "Blockers", "Next steps"]
          status := some "pending" })) ++
      ([1, 2, 3].map (fun month =>
        { target_date := some (formatDate (today + 30 * month))
          type := some "management_update"
          audiences := ["management"]
          reason := some "Monthly executive update"
          key_topics := ["Progress", "Budget", "Risks", "Timeline"]
          status := some "pending" }))
    else []
  { generated_date := some (formatDate today)
    planning_horizon := some "3 months"
    planned_communications := planned }

/-! ### Fallback draft generator (src/agent.py lines 453-514) -/

/-- Newline-joined `- item` bullet list (`chr(10).join(...)` in the source). -/
def bulletList (items : List String) : String :=
  String.intercalate "\n" (items.map (fun u => "- " ++ u))

/-- Newline-joined `- date: description` milestone list. -/
def milestoneList (ms : List Milestone) : String :=
  String.intercalate "\n" (ms.map (fun m => "- " ++ m.date ++ ": " ++ m.description))

/-- Newline-joined `- description` milestone list (management template). -/
def milestoneDescList (ms : List Milestone) : String :=
  String.intercalate "\n" (ms.map (fun m => "- " ++ m.description))

/-- The `users` body template (before the final `.strip()`). -/
def usersBody (p : Project) : String :=
  "\nHi team,\n\nWe wanted to share an update on " ++ p.name ++
  ".\n\nRecent progress:\n" ++ bulletList (p.recent_updates.take 3) ++
  "\n\nWhat\x27s coming next:\nWe\x27re working on " ++ p.current_phase ++
  " and expect to launch on " ++ p.expected_launch ++
  ".\n\nThanks for your continued support!\n            "

/-- The `developers` body template (before the final `.strip()`). -/
def developersBody (p : Project) : String :=
  "\nTeam,\n\nTechnical update on " ++ p.name ++ ":\n\nCurrent Phase: " ++
  p.current_phase ++ "\n\nRecent Updates:\n" ++
  bulletList (p.recent_updates.take 3) ++ "\n\nUpcoming Milestones:\n" ++
  milestoneList (p.upcoming_milestones.take 2) ++
  "\n\nPlease review and let me know if you have questions.\n            "

/-- The `management` body template (before the final `.strip()`). -/
def managementBody (p : Project) : String :=
  "\nExecutive Update: " ++ p.name ++ "\n\nStatus: " ++ p.status ++
  "\nCurrent Phase: " ++ p.current_phase ++ "\nExpected Launch: " ++
  p.expected_launch ++ "\n\nKey Accomplishments:\n" ++
  bulletList (p.recent_updates.take 3) ++ "\n\nBusiness Value: " ++
  p.business_value ++ "\n\nNext Steps:\n" ++
  milestoneDescList (p.upcoming_milestones.take 2) ++ "\n            "

/-- The `subject_templates` lookup with its default. -/
def fallbackSubject (p : Project) (audience : String) : String :=
  if audience = "users" then p.name ++ " Update - New Features & Improvements"
  else if audience = "developers" then p.name ++ " - Technical Update"
  else if audience = "management" then p.name ++ " Status Report"
  else p.name ++ " Update"

/-- The `body_templates` lookup with its default, followed by `.strip()`. -/
def fallbackBody (p : Project) (audience : String) : String :=
  (if audience = "users" then usersBody p
   else if audience = "developers" then developersBody p
   else if audience = "management" then managementBody p
   else "Update on " ++ p.name).trim

/-- The dictionary returned by `_generate_fallback_draft`. -/
structure FallbackDraft where
  subject : String
  body : String
  key_points : List String
  audience : String
  draft_id : String
deriving DecidableEq

/-- Embeds `_generate_fallback_draft`; `uuid` is the `str(uuid.uuid4())`
    drawn for the `draft_id` field. -/
def generate_fallback_draft (project : Project) (audience : String)
    (planned_comm : PlannedComm) (uuid : String) : FallbackDraft :=
  { subject := fallbackSubject project audience
    body := fallbackBody project audience
    key_points := planned_comm.key_topics
    audience := audience
    draft_id := uuid }

/-! ### Plan generation (src/agent.py lines 73-170) -/

/-- Result value of `generate_comms_plan`: either the stored plan object or
    the `error: Project not found` dictionary. -/
inductive PlanResult where
  | ok (plan : Plan)
  | error (msg : String)
deriving DecidableEq

/-- Apply `f` to the first project whose id matches (the
    `for ... if ... : ...; break` mutation pattern of the source). -/
def updateFirst (project_id : String) (f : Project → Project) :
    List Project → List Project
  | [] => []
  | p :: rest =>
    if p.id = project_id then f p :: rest else p :: updateFirst project_id f rest

/-- Embeds `generate_comms_plan`.  `extracted` is the value of
    `_extract_json_from_response(self.run(prompt))`, `none` when the LLM
    response holds no parsable JSON object; in that case the fallback plan
    is used.  The chosen plan is written into the matching project of the
    store and also returned. -/
def generate_comms_plan (s : Store) (project_id : String) (today : Nat)
    (extracted : Option Plan) : PlanResult × Store :=
  match get_project_by_id s project_id with
  | none => (.error "Project not found", s)
  | some project =>
    let plan_data := extracted.getD (generate_fallback_plan project today)
    (.ok plan_data,
     ⟨updateFirst project_id (fun proj => { proj with comms_plan := some plan_data })
        s.projects⟩)

/-! ### Email draft generation (src/agent.py lines 212-344) -/

/-- The JSON object extracted from one LLM draft response. -/
structure DraftData where
  subject : String
  body : String
  key_points : List String
deriving DecidableEq

/-- A finished draft dictionary as returned by `generate_email_draft` (the
    extracted or fallback data plus the four fields set on lines 331-334). -/
structure Draft where
  subject : String
  body : String
  key_points : List String
  audience : String
  project_id : String
  planned_comm_id : Option String
  draft_id : String
deriving DecidableEq

/-- Result of `generate_email_draft`: the list of drafts, or the singleton
    error list `[error: ...]` of the source, modelled as `error`. -/
inductive DraftsResult where
  | ok (drafts : List Draft)
  | error (msg : String)
deriving DecidableEq

/-- Python `a or b` on an optional string: `a` unless it is `None` or empty. -/
def pyOr (a b : Option String) : Option String :=
  match a with
  | some s => if s.isEmpty then b else some s
  | none => b

/-- The planned-communication lookup of lines 232-236: use the given object
    if provided, otherwise the first planned communication whose
    `target_date` equals `planned_comm_id` (both may be `None`). -/
def findPlannedComm (project : Project) (planned_comm_id : Option String)
    (planned_comm : Option PlannedComm) : Option PlannedComm :=
  match planned_comm with
  | some c => some c
  | none => (plannedComms project).find? (fun c => c.target_date == planned_comm_id)

/-- One iteration of the per-audience loop: take the extracted draft object
    of the `i`-th LLM call (or the fallback draft when extraction fails) and
    set `audience`, `project_id`, `planned_comm_id` and a fresh `draft_id`. -/
def mkDraft (project_id : String) (planned_comm_id : Option String)
    (pc : PlannedComm) (project : Project) (oracle : Nat → Option DraftData)
    (uuid : Nat → String) (i : Nat) (audience : String) : Draft :=
  let dd : DraftData :=
    match oracle i with
    | some d => d
    | none =>
      let fb := generate_fallback_draft project audience pc (uuid i)
      ⟨fb.subject, fb.body, fb.key_points⟩
  { subject := dd.subject
    body := dd.body
    key_points := dd.key_points
    audience := audience
    project_id := project_id
    planned_comm_id := pyOr planned_comm_id pc.target_date
    draft_id := uuid i }

/-- The per-audience loop of `generate_email_draft`, `i` counting the LLM
    calls made so far. -/
def mkDrafts (project_id : String) (planned_comm_id : Option String)
    (pc : PlannedComm) (project : Project) (oracle : Nat → Option DraftData)
    (uuid : Nat → String) : Nat → List String → List Draft
  | _, [] => []
  | i, audience :: rest =>
    mkDraft project_id planned_comm_id pc project oracle uuid i audience ::
      mkDrafts project_id planned_comm_id pc project oracle uuid (i + 1) rest

/-- Embeds `generate_email_draft`.  `oracle i` is the JSON object extracted
    from the LLM response of the `i`-th audience (or `none`), `uuid i` the
    `uuid4` draw for its `draft_id`.  The function never writes the store,
    which is returned unchanged. -/
def generate_email_draft (s : Store) (project_id : String)
    (planned_comm_id : Option String) (planned_comm : Option PlannedComm)
    (oracle : Nat → Option DraftData) (uuid : Nat → String) :
    DraftsResult × Store :=
  match get_project_by_id s project_id with
  | none => (.error "Project not found", s)
  | some project =>
    match findPlannedComm project planned_comm_id planned_comm with
    | none => (.error "Planned communication not found", s)
    | some pc =>
      (.ok (mkDrafts project_id planned_comm_id pc project oracle uuid 0
          pc.audiences), s)

/-! ### Recording sent communications (src/agent.py lines 346-396) -/

/-- The `comm_data` dictionary passed to `update_comms_history`; every field
    is read with `.get`, so all are optional. -/
structure CommData where
  id : Option String
  date_sent : Option String
  type : Option String
  audience : Option String
  subject : Option String
  summary : Option String
  key_messages : Option (List String)
  sent_to : Option (List String)
  planned_comm_id : Option String
deriving DecidableEq

/-- Python truthiness of an optional string: `False` for `None` and for the
    empty string. -/
def truthy (o : Option String) : Bool :=
  match o with
  | some s => !s.isEmpty
  | none => false

/-- The history entry built on lines 363-372; `uuid8` is the first eight
    characters of the `uuid4` drawn for a missing id and `today` the ordinal
    day of `datetime.now()`. -/
def mkCommEntry (cd : CommData) (today : Nat) (uuid8 : String) : CommEntry :=
  { id := cd.id.getD ("comm_" ++ uuid8)
    date_sent := cd.date_sent.getD (formatDate today)
    type := cd.type
    audience := cd.audience
    subject := cd.subject
    summary := cd.summary.getD ""
    key_messages := cd.key_messages.getD []
    sent_to := cd.sent_to.getD [] }

/-- The status reconciliation of lines 382-385: a planned communication is
    marked `sent` when its `target_date` equals `planned_comm_id` and its
    `audiences` list contains the sent audience (`None in [...]` is false in
    Python). -/
def markSent (cd : CommData) (c : PlannedComm) : PlannedComm :=
  if (c.target_date == cd.planned_comm_id) &&
     (match cd.audience with
      | some a => c.audiences.contains a
      | none => false) then
    { c with status := some "sent" }
  else c

/-- The mutation applied to the matching project by `update_comms_history`:
    append one history entry (initialising `comms_history` when absent) and,
    when `planned_comm_id` is truthy, reconcile every planned communication;
    a falsy (`None` or empty) `planned_comm_id` skips reconciliation. -/
def applyCommUpdate (cd : CommData) (today : Nat) (uuid8 : String)
    (project : Project) : Project :=
  { project with
    comms_history := some (project.comms_history.getD [] ++ [mkCommEntry cd today uuid8])
    comms_plan :=
      if truthy cd.planned_comm_id then
        project.comms_plan.map (fun pl =>
          { pl with planned_communications := pl.planned_communications.map (markSent cd) })
      else project.comms_plan }

/-- Result of `update_comms_history`: the success dictionary with its
    message, or the `Project not found` error dictionary. -/
inductive UpdateResult where
  | ok (message : String)
  | error (msg : String)
deriving DecidableEq

/-- Embeds `update_comms_history`: mutate the first project whose id
    matches and report success; when no project matches, return the error
    and leave the store unchanged. -/
def update_comms_history (s : Store) (project_id : String) (cd : CommData)
    (today : Nat) (uuid8 : String) : UpdateResult × Store :=
  match get_project_by_id s project_id with
  | none => (.error "Project not found", s)
  | some project =>
    (.ok ("Communication added to history for project " ++ project.name),
     ⟨updateFirst project_id (applyCommUpdate cd today uuid8) s.projects⟩)

/-! ### Editing a project (src/app.py lines 139-205) -/

/-- The HTML form fields of the edit route; an absent field falls back to
    the current value (text fields) or to the empty string (lists). -/
structure EditForm where
  name : Option String
  owner : Option String
  status : Option String
  description : Option String
  business_value : Option String
  current_phase : Option String
  expected_launch : Option String
  users : Option String
  developers : Option String
  management : Option String
  recent_updates : Option String
  milestones : Option String
deriving DecidableEq

/-- Comma-split, strip, drop empties (the stakeholder email parsing). -/
def splitEmails (s : String) : List String :=
  ((s.splitOn ",").map String.trim).filter (fun e => !e.isEmpty)

/-- Newline-split, strip, drop empties (the recent-updates parsing). -/
def splitLines (s : String) : List String :=
  ((s.splitOn "\n").map String.trim).filter (fun u => !u.isEmpty)

/-- The milestone parsing: keep lines containing a colon, split once on the
    first colon into date and description, stripping both. -/
def parseMilestones (s : String) : List Milestone :=
  (s.splitOn "\n").filterMap (fun line =>
    match line.splitOn ":" with
    | [] => none
    | [_] => none
    | p0 :: rest => some ⟨p0.trim, (String.intercalate ":" rest).trim⟩)

/-- The field updates applied to the matching project by the edit route. -/
def applyEdit (form : EditForm) (p : Project) : Project :=
  { p with
    name := form.name.getD p.name
    owner := form.owner.getD p.owner
    status := form.status.getD p.status
    description := form.description.getD p.description
    business_value := form.business_value.getD p.business_value
    current_phase := form.current_phase.getD p.current_phase
    expected_launch := form.expected_launch.getD p.expected_launch
    stakeholders :=
      { users := splitEmails (form.users.getD "")
        developers := splitEmails (form.developers.getD "")
        management := splitEmails (form.management.getD "") }
    recent_updates :=
      if truthy form.recent_updates then splitLines (form.recent_updates.getD "")
      else p.recent_updates
    upcoming_milestones :=
      if truthy form.milestones then parseMilestones (form.milestones.getD "")
      else p.upcoming_milestones }

/-- Embeds the `edit_project` route: update the first project whose id
    matches; with no match the store is written back unchanged. -/
def edit_project (s : Store) (project_id : String) (form : EditForm) : Store :=
  ⟨updateFirst project_id (applyEdit form) s.projects⟩

/-! ### Concrete sample data (used to instantiate the theorems) -/

/-- A sample active project. -/
def demoProject : Project :=
  { id := "proj_1"
    name := "Apollo"
    owner := "Ada"
    status := "active"
    description := "demo project"
    business_value := "value"
    start_date := "2026-01-01"
    current_phase := "build"
    expected_launch := "2026-12-01"
    stakeholders := ⟨["u@example.com"], ["d@example.com"], ["m@example.com"]⟩
    recent_updates := ["shipped beta"]
    upcoming_milestones := [⟨"2026-11-01", "launch"⟩]
    comms_history := some []
    comms_plan := none }

/-- A sample pending planned communication due on 2026-10-20. -/
def demoComm : PlannedComm :=
  { target_date := some "2026-10-20"
    type := some "status_update"
    audiences := ["users"]
    reason := some "regular update"
    key_topics := ["progress"]
    status := some "pending" }

/-- A planned communication without a parsable target date. -/
def badComm : PlannedComm :=
  { target_date := none
    type := some "status_update"
    audiences := ["users"]
    reason := none
    key_topics := []
    status := some "pending" }

/-- A pending planned communication whose `target_date` is the empty
    string. -/
def emptyDateComm : PlannedComm :=
  { target_date := some ""
    type := none
    audiences := ["users"]
    reason := none
    key_topics := []
    status := some "pending" }

/-- The sample project carrying `emptyDateComm` in its plan. -/
def emptyDateProject : Project :=
  { demoProject with comms_plan := some ⟨none, none, [emptyDateComm]⟩ }

/-- The sample project carrying `demoComm` in its plan. -/
def demoPlanProject : Project :=
  { demoProject with comms_plan := some ⟨none, none, [demoComm]⟩ }

/-- A store holding only `demoProject`. -/
def demoStore : Store := ⟨[demoProject]⟩

/-- The `comm_data` of a sent communication aimed at `emptyDateComm`: its
    `planned_comm_id` is the empty string. -/
def emptyIdCommData : CommData :=
  { id := some "comm_1"
    date_sent := some "2026-10-12"
    type := some "status_update"
    audience := some "users"
    subject := some "hello"
    summary := some ""
    key_messages := some []
    sent_to := some []
    planned_comm_id := some "" }

/-- The `comm_data` of a sent communication aimed at `demoComm`. -/
def demoCommData : CommData :=
  { id := some "comm_2"
    date_sent := some "2026-10-12"
    type := some "status_update"
    audience := some "users"
    subject := some "hello"
    summary := some ""
    key_messages := some []
    sent_to := some []
    planned_comm_id := some "2026-10-20" }

/-- A store holding only `demoPlanProject`. -/
def demoPlanStore : Store := ⟨[demoPlanProject]⟩

/-- The sample project with a non-active status. -/
def pausedProject : Project := { demoProject with status := "paused" }

/-- An edit form with every field absent. -/
def emptyForm : EditForm :=
  ⟨none, none, none, none, none, none, none, none, none, none, none, none⟩

/-- The first planned communication of the fallback plan generated for
    `demoProject` on day 738000 (the week-2 status update). -/
def demoFallbackComm : PlannedComm :=
  { target_date := some (formatDate (738000 + 7 * 2))
    type := some "status_update"
    audiences := ["developers"]
    reason := some ("Regular status update - week " ++ toString 2)
    key_topics := ["Progress update", "Blockers", "Next steps"]
    status := some "pending" }

/-! ### Helper lemmas -/

lemma considerComm_spec (today : Nat) (pid pname : String) (c : PlannedComm)
    (rec : DueComm) :
    considerComm today pid pname c = some rec ↔
      c.status = some "pending" ∧
      ∃ tds target, c.target_date = some tds ∧ parseDate tds = some target ∧
        today ≤ target ∧ target ≤ today + 7 ∧
        rec = ⟨pid, pname, c, target - today⟩ := by
  unfold considerComm
  by_cases hs : c.status = some "pending"
  · rw [if_pos hs]
    cases htd : c.target_date with
    | none => simp [hs, htd]
    | some tds =>
      dsimp only
      cases hp : parseDate tds with
      | none => simp [hs, htd, hp]
      | some target =>
        dsimp only
        by_cases hw : today ≤ target ∧ target ≤ today + 7
        · rw [if_pos hw]
          constructor
          · intro h
            injection h with h
            exact ⟨hs, tds, target, rfl, hp, hw.1, hw.2, h.symm⟩
          · rintro ⟨-, tds', tgt', htds, hp', -, -, hrec⟩
            injection htds with e
            subst e
            rw [hp] at hp'
            injection hp' with e2
            subst e2
            rw [hrec]
        · rw [if_neg hw]
          constructor
          · intro h
            cases h
          · rintro ⟨-, tds', tgt', htds, hp', h1, h2, -⟩
            injection htds with e
            subst e
            rw [hp] at hp'
            injection hp' with e2
            subst e2
            exact absurd ⟨h1, h2⟩ hw
  · rw [if_neg hs]
    constructor
    · intro h
      cases h
    · rintro ⟨hs', -⟩
      exact absurd hs' hs

lemma considerComm_none_of_bad (today : Nat) (pid pname : String)
    (c : PlannedComm) (hbad : c.target_date.bind parseDate = none) :
    considerComm today pid pname c = none := by
  unfold considerComm
  cases htd : c.target_date with
  | none => split <;> rfl
  | some tds =>
    rw [htd] at hbad
    simp only [Option.some_bind] at hbad
    split
    · dsimp only
      rw [hbad]
    · rfl

lemma mem_updateFirst_iff (project_id : String) (f : Project → Project)
    (hf : ∀ p, (f p).id = p.id) (q : Project) (hq : q.id ≠ project_id) :
    ∀ l : List Project, q ∈ updateFirst project_id f l ↔ q ∈ l := by
  intro l
  induction l with
  | nil => simp [updateFirst]
  | cons p rest ih =>
    by_cases hp : p.id = project_id
    · simp only [updateFirst, if_pos hp, List.mem_cons]
      constructor
      · rintro (h | h)
        · exact absurd (h ▸ hf p ▸ hp) hq
        · exact Or.inr h
      · rintro (h | h)
        · exact absurd (h ▸ hp) hq
        · exact Or.inr h
    · simp only [updateFirst, if_neg hp, List.mem_cons, ih]

lemma updateFirst_append (project_id : String) (f : Project → Project)
    (pre post : List Project) (p : Project)
    (hpre : ∀ q ∈ pre, q.id ≠ project_id) (hp : p.id = project_id) :
    updateFirst project_id f (pre ++ p :: post) = pre ++ f p :: post := by
  induction pre with
  | nil => simp [updateFirst, hp]
  | cons r rest ih =>
    have hr : r.id ≠ project_id := hpre r (by simp)
    show (if r.id = project_id then f r :: (rest ++ p :: post)
          else r :: updateFirst project_id f (rest ++ p :: post)) =
        r :: (rest ++ f p :: post)
    rw [if_neg hr, ih (fun q hq => hpre q (by simp [hq]))]

lemma get_project_by_id_none (s : Store) (project_id : String)
    (h : ∀ p ∈ s.projects, p.id ≠ project_id) :
    get_project_by_id s project_id = none := by
  apply List.find?_eq_none.mpr
  intro p hp
  simpa using h p hp

lemma get_project_by_id_first (pre post : List Project) (p : Project)
    (project_id : String) (hpre : ∀ q ∈ pre, q.id ≠ project_id)
    (hp : p.id = project_id) :
    get_project_by_id ⟨pre ++ p :: post⟩ project_id = some p := by
  unfold get_project_by_id
  induction pre with
  | nil => simp [List.find?_cons, hp]
  | cons r rest ih =>
    have hr : r.id ≠ project_id := hpre r (by simp)
    have hrb : (r.id == project_id) = false := by simpa using hr
    simp only [List.cons_append, List.find?_cons, hrb]
    exact ih (fun q hq => hpre q (by simp [hq]))

lemma mkDrafts_length (project_id : String) (pcid : Option String)
    (pc : PlannedComm) (project : Project) (oracle : Nat → Option DraftData)
    (uuid : Nat → String) :
    ∀ (auds : List String) (i : Nat),
      (mkDrafts project_id pcid pc project oracle uuid i auds).length = auds.length := by
  intro auds
  induction auds with
  | nil => intro i; rfl
  | cons a rest ih => intro i; simp [mkDrafts, ih]

lemma mkDrafts_get (project_id : String) (pcid : Option String)
    (pc : PlannedComm) (project : Project) (oracle : Nat → Option DraftData)
    (uuid : Nat → String) :
    ∀ (auds : List String) (i j : Nat)
      (h1 : j < (mkDrafts project_id pcid pc project oracle uuid i auds).length)
      (h2 : j < auds.length),
      (mkDrafts project_id pcid pc project oracle uuid i auds).get ⟨j, h1⟩ =
        mkDraft project_id pcid pc project oracle uuid (i + j) (auds.get ⟨j, h2⟩) := by
  intro auds
  induction auds with
  | nil => intro i j h1 h2; exact absurd h2 (by simp)
  | cons a rest ih =>
    intro i j h1 h2
    cases j with
    | zero => rfl
    | succ j' =>
      have h1' : j' < (mkDrafts project_id pcid pc project oracle uuid (i + 1) rest).length := by
        simpa [mkDrafts] using h1
      have h2' : j' < rest.length := by simpa using h2
      have := ih (i + 1) j' h1' h2'
      simp only [mkDrafts, List.get_cons_succ]
      rw [this]
      congr 1
      omega

lemma plannedComms_applyCommUpdate (cd : CommData) (today : Nat)
    (uuid8 : String) (p : Project) :
    plannedComms (applyCommUpdate cd today uuid8 p) =
      if truthy cd.planned_comm_id then (plannedComms p).map (markSent cd)
      else plannedComms p := by
  cases hcp : p.comms_plan with
  | none =>
    simp only [applyCommUpdate, plannedComms, hcp]
    split <;> simp
  | some pl =>
    simp only [applyCommUpdate, plannedComms, hcp]
    split <;> simp

/-! ### Claim theorems -/

/-- C1: a record is in the result of `get_due_communications` if and only if
    it pairs the id and name of a stored project with a planned communication
    of that project whose status is `pending` and whose `target_date`, parsed
    as `YYYY-MM-DD`, lies between today and today plus 7 days inclusive; the
    recorded `days_until_due` is the difference in days between the target
    date and today. -/
theorem due_communications_characterization (s : Store) (today : Nat)
    (rec : DueComm) :
    rec ∈ get_due_communications s today ↔
      ∃ p, p ∈ s.projects ∧ rec.project_id = p.id ∧ rec.project_name = p.name ∧
        rec.planned_comm ∈ plannedComms p ∧
        rec.planned_comm.status = some "pending" ∧
        ∃ tds target, rec.planned_comm.target_date = some tds ∧
          parseDate tds = some target ∧ today ≤ target ∧ target ≤ today + 7 ∧
          rec.days_until_due = target - today := by
  unfold get_due_communications
  rw [(List.mergeSort_perm _ _).mem_iff, List.mem_flatMap]
  constructor
  · rintro ⟨p, hp, hmem⟩
    rw [List.mem_filterMap] at hmem
    obtain ⟨c, hc, hcons⟩ := hmem
    rw [considerComm_spec] at hcons
    obtain ⟨hs, tds, target, htd, hparse, h1, h2, hrec⟩ := hcons
    subst hrec
    exact ⟨p, hp, rfl, rfl, hc, hs, tds, target, htd, hparse, h1, h2, rfl⟩
  · rintro ⟨p, hp, hid, hname, hmem, hs, tds, target, htd, hparse, h1, h2, hdays⟩
    refine ⟨p, hp, List.mem_filterMap.mpr ⟨rec.planned_comm, hmem, ?_⟩⟩
    rw [considerComm_spec]
    refine ⟨hs, tds, target, htd, hparse, h1, h2, ?_⟩
    cases rec
    simp_all

/-- C9: a planned communication whose `target_date` key is missing, or whose
    value does not parse as a `YYYY-MM-DD` date, is skipped without failing:
    removing it from its plan leaves the result of `get_due_communications`
    unchanged (the remaining communications are still processed), and no
    returned record carries it. -/
theorem unparsable_target_date_skipped (today : Nat) (pre post : List Project)
    (p : Project) (pl : Plan) (l1 l2 : List PlannedComm) (c : PlannedComm)
    (hbad : c.target_date.bind parseDate = none)
    (hpl : pl.planned_communications = l1 ++ c :: l2) :
    get_due_communications ⟨pre ++ { p with comms_plan := some pl } :: post⟩ today =
      get_due_communications
        ⟨pre ++
          { p with
            comms_plan := some ({ pl with planned_communications := l1 ++ l2 }) } ::
          post⟩ today ∧
    ∀ rec ∈ get_due_communications
        ⟨pre ++ { p with comms_plan := some pl } :: post⟩ today,
      rec.planned_comm ≠ c := by
  constructor
  · unfold get_due_communications
    congr 1
    simp [plannedComms, hpl, List.filterMap_append,
      considerComm_none_of_bad today p.id p.name c hbad]
  · intro rec hrec
    unfold get_due_communications at hrec
    rw [(List.mergeSort_perm _ _).mem_iff, List.mem_flatMap] at hrec
    obtain ⟨q, -, hmem⟩ := hrec
    rw [List.mem_filterMap] at hmem
    obtain ⟨c', -, hcons⟩ := hmem
    rw [considerComm_spec] at hcons
    obtain ⟨-, tds, target, htd, hparse, -, -, hrec'⟩ := hcons
    subst hrec'
    intro hcc
    dsimp only at hcc
    subst hcc
    rw [htd] at hbad
    simp only [Option.some_bind] at hbad
    rw [hparse] at hbad
    cases hbad

/-- C2: for an existing project, when the extraction helper returns no JSON
    object (`none`), `generate_comms_plan` returns the template fallback plan
    rather than an error, and `generate_email_draft` returns, for each
    audience, a draft built from the template fallback draft rather than an
    error. -/
theorem extraction_failure_uses_fallback (s : Store) (project_id : String)
    (project : Project) (today : Nat)
    (hfind : get_project_by_id s project_id = some project) :
    (generate_comms_plan s project_id today none).1 =
      .ok (generate_fallback_plan project today) ∧
    ∀ (pcid : Option String) (pc : PlannedComm) (uuid : Nat → String),
      ∃ ds, (generate_email_draft s project_id pcid (some pc)
          (fun _ => none) uuid).1 = .ok ds ∧
        ds.length = pc.audiences.length ∧
        ∀ (i : Nat) (h1 : i < ds.length) (h2 : i < pc.audiences.length),
          ds.get ⟨i, h1⟩ =
            { subject :=
                (generate_fallback_draft project (pc.audiences.get ⟨i, h2⟩) pc
                  (uuid i)).subject
              body :=
                (generate_fallback_draft project (pc.audiences.get ⟨i, h2⟩) pc
                  (uuid i)).body
              key_points :=
                (generate_fallback_draft project (pc.audiences.get ⟨i, h2⟩) pc
                  (uuid i)).key_points
              audience := pc.audiences.get ⟨i, h2⟩
              project_id := project_id
              planned_comm_id := pyOr pcid pc.target_date
              draft_id := uuid i } := by
  constructor
  · simp [generate_comms_plan, hfind]
  · intro pcid pc uuid
    refine ⟨mkDrafts project_id pcid pc project (fun _ => none) uuid 0 pc.audiences,
      ?_, mkDrafts_length _ _ _ _ _ _ _ _, ?_⟩
    · simp [generate_email_draft, hfind, findPlannedComm]
    · intro i h1 h2
      rw [mkDrafts_get project_id pcid pc project (fun _ => none) uuid
        pc.audiences 0 i h1 h2]
      simp [mkDraft]

/-- C6: for an existing project and a planned communication found for the
    request, `generate_email_draft` returns one draft per element of the
    audiences list, in order, each tagged with that audience and the project
    id; an empty audiences list yields an empty draft list. -/
theorem one_draft_per_audience (s : Store) (project_id : String)
    (project : Project) (pcid : Option String) (pc? : Option PlannedComm)
    (pc : PlannedComm) (oracle : Nat → Option DraftData) (uuid : Nat → String)
    (hfind : get_project_by_id s project_id = some project)
    (hpc : findPlannedComm project pcid pc? = some pc) :
    ∃ ds, (generate_email_draft s project_id pcid pc? oracle uuid).1 = .ok ds ∧
      ds.length = pc.audiences.length ∧
      (∀ (i : Nat) (h1 : i < ds.length) (h2 : i < pc.audiences.length),
        (ds.get ⟨i, h1⟩).audience = pc.audiences.get ⟨i, h2⟩ ∧
        (ds.get ⟨i, h1⟩).project_id = project_id) ∧
      (pc.audiences = [] → ds = []) := by
  refine ⟨mkDrafts project_id pcid pc project oracle uuid 0 pc.audiences,
    ?_, mkDrafts_length _ _ _ _ _ _ _ _, ?_, ?_⟩
  · simp [generate_email_draft, hfind, hpc]
  · intro i h1 h2
    rw [mkDrafts_get project_id pcid pc project oracle uuid pc.audiences 0 i h1 h2]
    constructor <;> simp [mkDraft]
  · intro h
    rw [h]
    rfl

/-- C7: every planned communication of a fallback plan has a `target_date`,
    a non-empty audiences list and status `pending`; for a project whose
    status is not `active` the list is empty, while the plan still carries
    the generation date and the planning horizon `3 months`. -/
theorem fallback_plan_invariants (project : Project) (today : Nat) :
    (∀ c ∈ (generate_fallback_plan project today).planned_communications,
        c.target_date.isSome ∧ c.audiences ≠ [] ∧ c.status = some "pending") ∧
    (project.status ≠ "active" →
        (generate_fallback_plan project today).planned_communications = []) ∧
    (generate_fallback_plan project today).generated_date =
        some (formatDate today) ∧
    (generate_fallback_plan project today).planning_horizon = some "3 months" := by
  refine ⟨?_, ?_, rfl, rfl⟩
  · intro c hc
    unfold generate_fallback_plan at hc
    dsimp only at hc
    by_cases ha : project.status = "active"
    · rw [if_pos ha] at hc
      rw [List.mem_append] at hc
      rcases hc with hc | hc <;>
        · rw [List.mem_map] at hc
          obtain ⟨w, -, rfl⟩ := hc
          exact ⟨rfl, by simp, rfl⟩
    · rw [if_neg ha] at hc
      cases hc
  · intro ha
    unfold generate_fallback_plan
    simp [ha]

/-- C8: when no stored project has the requested id, `generate_comms_plan`,
    `generate_email_draft` and `update_comms_history` all return their
    `Project not found` error value and leave the store unchanged. -/
theorem missing_project_errors (s : Store) (project_id : String) (today : Nat)
    (extracted : Option Plan) (pcid : Option String) (pc? : Option PlannedComm)
    (oracle : Nat → Option DraftData) (uuid : Nat → String) (cd : CommData)
    (uuid8 : String) (h : ∀ p ∈ s.projects, p.id ≠ project_id) :
    generate_comms_plan s project_id today extracted =
      (.error "Project not found", s) ∧
    generate_email_draft s project_id pcid pc? oracle uuid =
      (.error "Project not found", s) ∧
    update_comms_history s project_id cd today uuid8 =
      (.error "Project not found", s) := by
  have hnone := get_project_by_id_none s project_id h
  exact ⟨by simp [generate_comms_plan, hnone],
    by simp [generate_email_draft, hnone],
    by simp [update_comms_history, hnone]⟩

/-- C3 counterexample: two invocations of the fallback draft generator with
    the same project, audience and planned communication are not equal,
    because each invocation embeds a freshly drawn `uuid4` as `draft_id`
    (src/agent.py line 513); here the two draws differ. -/
theorem fallback_draft_not_invocation_independent :
    generate_fallback_draft demoProject "users" demoComm
        "00000000-0000-4000-8000-000000000000" ≠
      generate_fallback_draft demoProject "users" demoComm
        "11111111-1111-4111-8111-111111111111" := by
  intro h
  have h2 := congrArg FallbackDraft.draft_id h
  simp [generate_fallback_draft] at h2

/-- C3 amended: the fallback generators are deterministic apart from the
    `draft_id` field of a draft, which is a fresh UUID on every invocation:
    the fallback plan generator depends only on the project and the current
    time, and two fallback drafts for the same project, audience and planned
    communication agree on subject, body, key points and audience. -/
theorem fallback_generators_deterministic (project : Project) (today : Nat)
    (audience : String) (pc : PlannedComm) (u1 u2 : String) :
    generate_fallback_plan project today = generate_fallback_plan project today ∧
    (generate_fallback_draft project audience pc u1).subject =
      (generate_fallback_draft project audience pc u2).subject ∧
    (generate_fallback_draft project audience pc u1).body =
      (generate_fallback_draft project audience pc u2).body ∧
    (generate_fallback_draft project audience pc u1).key_points =
      (generate_fallback_draft project audience pc u2).key_points ∧
    (generate_fallback_draft project audience pc u1).audience =
      (generate_fallback_draft project audience pc u2).audience :=
  ⟨rfl, rfl, rfl, rfl, rfl⟩

/-- C5: each of the three mutating operations rewrites the store while
    leaving every project whose id differs from the targeted one untouched:
    such a project is in the new store exactly when it was in the old one. -/
theorem mutations_preserve_other_projects (s : Store) (project_id : String)
    (form : EditForm) (today : Nat) (extracted : Option Plan) (cd : CommData)
    (uuid8 : String) (q : Project) (hq : q.id ≠ project_id) :
    (q ∈ (edit_project s project_id form).projects ↔ q ∈ s.projects) ∧
    (q ∈ (generate_comms_plan s project_id today extracted).2.projects ↔
      q ∈ s.projects) ∧
    (q ∈ (update_comms_history s project_id cd today uuid8).2.projects ↔
      q ∈ s.projects) := by
  refine ⟨?_, ?_, ?_⟩
  · exact mem_updateFirst_iff project_id (applyEdit form) (fun p => rfl) q hq
      s.projects
  · cases hfind : get_project_by_id s project_id with
    | none => simp [generate_comms_plan, hfind]
    | some pr =>
      simp only [generate_comms_plan, hfind]
      exact mem_updateFirst_iff project_id
        (fun proj =>
          { proj with
            comms_plan := some (extracted.getD (generate_fallback_plan pr today)) })
        (fun p => rfl) q hq s.projects
  · cases hfind : get_project_by_id s project_id with
    | none => simp [update_comms_history, hfind]
    | some pr =>
      simp only [update_comms_history, hfind]
      exact mem_updateFirst_iff project_id (applyCommUpdate cd today uuid8)
        (fun p => rfl) q hq s.projects

/-- C4 counterexample: `emptyDateProject` holds a pending planned
    communication whose `target_date` is the empty string, and
    `emptyIdCommData` records a sent communication with that very
    `planned_comm_id` (the empty string) and a matching audience; the claim
    then demands that its status become `sent`, yet after
    `update_comms_history` the communication is unchanged and still
    `pending`, because the source treats a falsy `planned_comm_id` as absent
    (src/agent.py line 381). -/
theorem history_update_empty_id_counterexample :
    emptyDateComm.target_date = emptyIdCommData.planned_comm_id ∧
    emptyIdCommData.audience = some "users" ∧
    "users" ∈ emptyDateComm.audiences ∧
    emptyDateComm.status = some "pending" ∧
    ∃ p', (update_comms_history ⟨[emptyDateProject]⟩ "proj_1" emptyIdCommData
        738075 "ab12cd34").2.projects = [p'] ∧
      plannedComms p' = [emptyDateComm] ∧
      emptyDateComm.status ≠ some "sent" := by
  refine ⟨rfl, rfl, by simp [emptyDateComm], rfl,
    applyCommUpdate emptyIdCommData 738075 "ab12cd34" emptyDateProject,
    rfl, rfl, by simp [emptyDateComm]⟩

/-- C4 amended: for the (first) stored project with the targeted id,
    `update_comms_history` appends exactly one entry to its
    `comms_history`, and, provided `comm_data` carries a non-empty
    `planned_comm_id` string, every planned communication of the project
    whose `target_date` equals it and whose audiences contain `comm_data`
    audience gets status `sent`, while every other planned communication is
    unchanged; when `planned_comm_id` is missing or the empty string (falsy
    in Python), no planned communication changes at all. -/
theorem history_update_appends_and_reconciles (s : Store) (project_id : String)
    (cd : CommData) (today : Nat) (uuid8 : String) (pre post : List Project)
    (p : Project) (hsplit : s.projects = pre ++ p :: post)
    (hpre : ∀ q ∈ pre, q.id ≠ project_id) (hp : p.id = project_id) :
    ∃ p', (update_comms_history s project_id cd today uuid8).2.projects =
        pre ++ p' :: post ∧
      p'.comms_history =
        some (p.comms_history.getD [] ++ [mkCommEntry cd today uuid8]) ∧
      (plannedComms p').length = (plannedComms p).length ∧
      (∀ tid, cd.planned_comm_id = some tid → tid ≠ "" →
        ∀ (i : Nat) (h1 : i < (plannedComms p).length)
          (h2 : i < (plannedComms p').length),
          (((plannedComms p)[i].target_date = some tid ∧
            ∃ a, cd.audience = some a ∧ a ∈ (plannedComms p)[i].audiences) →
            (plannedComms p')[i] =
              { (plannedComms p)[i] with status := some "sent" }) ∧
          (¬((plannedComms p)[i].target_date = some tid ∧
             ∃ a, cd.audience = some a ∧ a ∈ (plannedComms p)[i].audiences) →
            (plannedComms p')[i] = (plannedComms p)[i])) ∧
      ((cd.planned_comm_id = none ∨ cd.planned_comm_id = some "") →
        plannedComms p' = plannedComms p) := by
  have hfind0 := get_project_by_id_first pre post p project_id hpre hp
  have hfind : get_project_by_id s project_id = some p := by
    unfold get_project_by_id at hfind0 ⊢
    rw [hsplit]
    exact hfind0
  refine ⟨applyCommUpdate cd today uuid8 p, ?_, rfl, ?_, ?_, ?_⟩
  · simp only [update_comms_history, hfind]
    rw [hsplit]
    exact updateFirst_append project_id _ pre post p hpre hp
  · rw [plannedComms_applyCommUpdate]
    split <;> simp
  · intro tid htid htne i h1 h2
    have hie : tid.isEmpty = false := by
      rw [Bool.eq_false_iff]
      intro hT
      exact htne ((String.isEmpty_iff tid).mp hT)
    have htr : truthy cd.planned_comm_id = true := by
      unfold truthy
      rw [htid]
      simp [hie]
    have hmap : plannedComms (applyCommUpdate cd today uuid8 p) =
        (plannedComms p).map (markSent cd) := by
      rw [plannedComms_applyCommUpdate, if_pos htr]
    constructor
    · rintro ⟨htd, a, haud, hmem⟩
      simp only [hmap, List.getElem_map]
      unfold markSent
      rw [if_pos]
      simp [htd, htid, haud, hmem]
    · intro hn
      simp only [hmap, List.getElem_map]
      unfold markSent
      rw [if_neg]
      intro hcond
      rw [Bool.and_eq_true] at hcond
      obtain ⟨hc1, hc2⟩ := hcond
      rw [beq_iff_eq] at hc1
      have hc1' : (plannedComms p)[i].target_date = some tid := by
        rw [hc1, htid]
      apply hn
      refine ⟨hc1', ?_⟩
      cases haud : cd.audience with
      | none =>
        simp only [haud] at hc2
        exact absurd hc2 (by simp)
      | some a =>
        simp only [haud] at hc2
        exact ⟨a, rfl, by simpa using hc2⟩
  · intro hfalsy
    rw [plannedComms_applyCommUpdate, if_neg]
    rcases hfalsy with h | h
    · simp [truthy, h]
    · simp only [truthy, h]
      simp only [Bool.not_eq_true, Bool.not_eq_false]
      rfl

/-- C10: when the data file is missing, `load_projects` yields the empty
    store, so listing projects gives the empty list, every lookup by id
    gives `none`, and listing due communications gives the empty list. -/
theorem missing_store_defaults (project_id : String) (today : Nat) :
    load_projects none = ⟨[]⟩ ∧
    (load_projects none).projects = [] ∧
    get_project_by_id (load_projects none) project_id = none ∧
    get_due_communications (load_projects none) today = [] ∧
    api_projects none = ⟨[]⟩ := by
  refine ⟨rfl, rfl, rfl, ?_, rfl⟩
  simp [get_due_communications, load_projects]

/-! ### Witness instances -/

/-- Witness for C1: on the concrete store, the iff produces the expected
    due record for `demoComm`, five days ahead of the chosen today. -/
theorem due_communications_characterization_witness :
    (⟨"proj_1", "Apollo", demoComm,
        toOrdinal 2026 10 20 - toOrdinal 2026 10 15⟩ : DueComm) ∈
      get_due_communications demoPlanStore (toOrdinal 2026 10 15) :=
  (due_communications_characterization demoPlanStore (toOrdinal 2026 10 15)
      ⟨"proj_1", "Apollo", demoComm,
        toOrdinal 2026 10 20 - toOrdinal 2026 10 15⟩).mpr
    ⟨demoPlanProject, by decide, rfl, rfl, by decide, rfl,
      "2026-10-20", toOrdinal 2026 10 20, rfl, by decide, by decide, by decide,
      rfl⟩

/-- Witness for C2: with the lookup hypothesis discharged on the concrete
    store, the plan generated under extraction failure is the fallback
    plan. -/
theorem extraction_failure_uses_fallback_witness :
    (generate_comms_plan demoStore "proj_1" 738000 none).1 =
      .ok (generate_fallback_plan demoProject 738000) :=
  (extraction_failure_uses_fallback demoStore "proj_1" demoProject 738000
    (by decide)).1

/-- Witness for C4: applied to the concrete one-project store, the update
    appends exactly the built history entry. -/
theorem history_update_appends_and_reconciles_witness :
    ∃ p', (update_comms_history ⟨[demoPlanProject]⟩ "proj_1" demoCommData
        738075 "ab12cd34").2.projects = [] ++ p' :: [] ∧
      p'.comms_history = some (demoPlanProject.comms_history.getD [] ++
        [mkCommEntry demoCommData 738075 "ab12cd34"]) := by
  obtain ⟨p', hl, hh, -, -, -⟩ :=
    history_update_appends_and_reconciles ⟨[demoPlanProject]⟩ "proj_1"
      demoCommData 738075 "ab12cd34" [] [] demoPlanProject rfl (by simp)
      (by decide)
  exact ⟨p', hl, hh⟩

/-- Witness for C5: the sample project, whose id differs from the targeted
    one, survives all three mutations on the concrete store. -/
theorem mutations_preserve_other_projects_witness :
    (demoProject ∈ (edit_project demoStore "other" emptyForm).projects ↔
      demoProject ∈ demoStore.projects) ∧
    (demoProject ∈
        (generate_comms_plan demoStore "other" 738000 none).2.projects ↔
      demoProject ∈ demoStore.projects) ∧
    (demoProject ∈
        (update_comms_history demoStore "other" demoCommData 738000
          "ab12cd34").2.projects ↔
      demoProject ∈ demoStore.projects) :=
  mutations_preserve_other_projects demoStore "other" emptyForm 738000 none
    demoCommData "ab12cd34" demoProject (by decide)

/-- Witness for C6: on the concrete store and planned communication the
    draft list has exactly one draft (one audience). -/
theorem one_draft_per_audience_witness :
    ∃ ds, (generate_email_draft demoPlanStore "proj_1" (some "2026-10-20")
        none (fun _ => none) (fun _ => "u1")).1 = .ok ds ∧
      ds.length = demoComm.audiences.length := by
  obtain ⟨ds, h1, h2, -, -⟩ :=
    one_draft_per_audience demoPlanStore "proj_1" demoPlanProject
      (some "2026-10-20") none demoComm (fun _ => none) (fun _ => "u1")
      (by decide) (by decide)
  exact ⟨ds, h1, h2⟩

/-- Witness for C7: the non-active sample project gets an empty planned
    list, and the first fallback communication of the active sample project
    satisfies the invariants. -/
theorem fallback_plan_invariants_witness :
    (generate_fallback_plan pausedProject 738000).planned_communications = [] ∧
    (demoFallbackComm.target_date.isSome ∧ demoFallbackComm.audiences ≠ [] ∧
      demoFallbackComm.status = some "pending") :=
  ⟨(fallback_plan_invariants pausedProject 738000).2.1 (by decide),
   (fallback_plan_invariants demoProject 738000).1 demoFallbackComm (by decide)⟩

/-- Witness for C8: on the empty store every operation reports the missing
    project and returns the store unchanged. -/
theorem missing_project_errors_witness :
    generate_comms_plan ⟨[]⟩ "x" 0 none = (.error "Project not found", ⟨[]⟩) ∧
    generate_email_draft ⟨[]⟩ "x" none none (fun _ => none) (fun _ => "u1") =
      (.error "Project not found", ⟨[]⟩) ∧
    update_comms_history ⟨[]⟩ "x" demoCommData 0 "ab12cd34" =
      (.error "Project not found", ⟨[]⟩) :=
  missing_project_errors ⟨[]⟩ "x" 0 none none none (fun _ => none)
    (fun _ => "u1") demoCommData "ab12cd34" (by simp)

/-- Witness for C9: dropping the bad communication from the concrete store
    leaves the due list unchanged. -/
theorem unparsable_target_date_skipped_witness :
    get_due_communications
        ⟨[{ demoProject with comms_plan := some ⟨none, none, [badComm]⟩ }]⟩ 0 =
      get_due_communications
        ⟨[{ demoProject with comms_plan := some ⟨none, none, []⟩ }]⟩ 0 :=
  (unparsable_target_date_skipped 0 [] [] demoProject
    ⟨none, none, [badComm]⟩ [] [] badComm rfl rfl).1

end Comms
